import Mathlib

/-!
Shallow embedding of the two demonstration scripts of this repository
(`agent_w_mcp/agent_w_mcp.py`, `agent_w_mcp/bash_tool_fastmcp.py`,
`multi_agent/multi-agent.py`) and proofs about them.

External services (the hosted model API, the tool servers, the shell) are
modelled as oracle functions supplied as parameters; the repository's own
control flow is translated function by function from the Python source.
-/

deriving instance DecidableEq for Except

namespace DevWorld

/-! ## Python dict model (insertion order preserved, assignment overwrites) -/

/-- Python dict assignment `d[k] = v` on a dict represented as an ordered
association list: if the key is present its value is overwritten in place,
otherwise the new pair is appended at the end. -/
def dictInsert : List (String × Nat) → String → Nat → List (String × Nat)
  | [], k, v => [(k, v)]
  | p :: m, k, v => if p.1 = k then (k, v) :: m else p :: dictInsert m k v

/-- Python dict lookup `d[k]` (as an `Option`; `none` models a `KeyError`). -/
def dictLookup : List (String × Nat) → String → Option Nat
  | [], _ => none
  | p :: m, k => if p.1 = k then some p.2 else dictLookup m k

/-- Keys of the dict. -/
def dictKeys (m : List (String × Nat)) : List String := m.map Prod.fst

theorem dictInsert_lookup (m : List (String × Nat)) (k : String) (v : Nat) (k' : String) :
    dictLookup (dictInsert m k v) k' = if k' = k then some v else dictLookup m k' := by
  induction m with
  | nil =>
    by_cases h : k' = k
    · simp [dictInsert, dictLookup, h]
    · simp [dictInsert, dictLookup, h, Ne.symm h]
  | cons p m ih =>
    by_cases hp : p.1 = k
    · simp only [dictInsert, hp, if_true]
      by_cases h : k' = k
      · simp [dictLookup, h]
      · simp [dictLookup, h, hp, Ne.symm h]
    · simp only [dictInsert, hp, if_false]
      by_cases hq : p.1 = k'
      · have h : ¬ k' = k := fun h => hp (hq.trans h)
        simp [dictLookup, hq, h]
      · simp [dictLookup, hq, ih]

theorem dictInsert_keys_mem (m : List (String × Nat)) (k : String) (v : Nat) (a : String) :
    a ∈ dictKeys (dictInsert m k v) ↔ a ∈ dictKeys m ∨ a = k := by
  induction m with
  | nil => simp [dictInsert, dictKeys]
  | cons p m ih =>
    by_cases hp : p.1 = k
    · simp only [dictInsert, hp, if_true, dictKeys, List.map_cons, List.mem_cons]
      constructor
      · rintro (h | h)
        · exact Or.inr h
        · exact Or.inl (Or.inr h)
      · rintro ((h | h) | h)
        · exact Or.inl (hp ▸ h)
        · exact Or.inr h
        · exact Or.inl h
    · simp only [dictInsert, hp, if_false, dictKeys, List.map_cons, List.mem_cons] at *
      rw [ih]
      tauto

theorem dictInsert_keys_nodup (m : List (String × Nat)) (k : String) (v : Nat)
    (h : (dictKeys m).Nodup) : (dictKeys (dictInsert m k v)).Nodup := by
  induction m with
  | nil => simp [dictInsert, dictKeys]
  | cons p m ih =>
    rw [dictKeys, List.map_cons, List.nodup_cons] at h
    by_cases hp : p.1 = k
    · simp only [dictInsert, hp, if_true, dictKeys, List.map_cons, List.nodup_cons]
      exact ⟨hp ▸ h.1, h.2⟩
    · simp only [dictInsert, hp, if_false, dictKeys, List.map_cons, List.nodup_cons]
      refine ⟨?_, ih h.2⟩
      rw [show (List.map Prod.fst (dictInsert m k v)) = dictKeys (dictInsert m k v) from rfl,
        dictInsert_keys_mem]
      rintro (hmem | rfl)
      · exact h.1 hmem
      · exact hp rfl

/-! ## agent_w_mcp/agent_w_mcp.py -/

/-- One tool as reported by a server session's `list_tools()` response
(name, description, inputSchema). -/
structure Tool where
  name : String
  description : String
  inputSchema : String
deriving DecidableEq

/-- One content block of a model response. For a `tool_use` block, `textAttr`
models the optional `text` attribute consulted by
`hasattr(content, 'text') and content.text`. -/
inductive ContentBlock where
  | text (t : String)
  | tool_use (name : String) (input : String) (textAttr : Option String)
deriving DecidableEq

/-- An entry of the `messages` list sent to the model. -/
structure Msg where
  role : String
  content : String
deriving DecidableEq

/-- The object returned by `session.call_tool`; only its `content` field is
used (it is appended verbatim as a user message). -/
structure ToolResult where
  content : String
deriving DecidableEq

/-- The external services used by process_query: `create` models
`self.anthropic.messages.create` (second argument: the `tools` parameter,
`none` when it is not passed), `callTool` models
`session.call_tool(tool_name, tool_args)` where the session is identified by
its id. -/
structure Env where
  create : List Msg → Option (List Tool) → List ContentBlock
  callTool : Nat → String → String → ToolResult

/-- Python exceptions that the repository's own expressions can raise. -/
inductive PyError where
  | keyError (key : String)
  | attributeError (attr : String)
  | indexError (idx : Nat)
deriving DecidableEq

/-- `response.content[0].text`: IndexError on an empty content list,
AttributeError when block 0 carries no `text` attribute. -/
def firstBlockText : List ContentBlock → Except PyError String
  | [] => .error (.indexError 0)
  | .text t :: _ => .ok t
  | .tool_use _ _ (some t) :: _ => .ok t
  | .tool_use _ _ none :: _ => .error (.attributeError "text")

/-- Tool names of a `list_tools` response: `[tool.name for tool in response.tools]`. -/
def toolNames (tools : List Tool) : List String := tools.map Tool.name

/-- The registration loop of process_query (lines 52-58): for each session of
`self.sessions` in order, for each of its tool names in order,
`tool2session[name] = session`. A session is a pair of its id and the tool
list returned by its `list_tools()`. -/
def buildTool2Session (sessions : List (Nat × List Tool)) : List (String × Nat) :=
  sessions.foldl
    (fun m s => (toolNames s.2).foldl (fun m name => dictInsert m name s.1) m) []

/-- The `available_tools` list of process_query (lines 59-63): the tool dicts
of every session, concatenated in session order. -/
def availableTools (sessions : List (Nat × List Tool)) : List Tool :=
  sessions.foldl (fun acc s => acc ++ s.2) []

/-- The fragment `f"[Calling tool {tool_name} with args {tool_args}]"`
(tool_args rendered as its string form). -/
def callingMarker (name input : String) : String :=
  "[Calling tool " ++ name ++ " with args " ++ input ++ "]"

/-- The messages appended after a tool call (lines 88-96): the assistant text
when the block has a truthy `text` attribute, then the tool result's content
as a user message. -/
def toolFollowUpMessages (messages : List Msg) (textAttr : Option String)
    (resultContent : String) : List Msg :=
  (match textAttr with
   | some t => if t = "" then messages else messages ++ [⟨"assistant", t⟩]
   | none => messages) ++ [⟨"user", resultContent⟩]

/-- The body of the `tool_use` branch of process_query after the
`tool2session[tool_name]` lookup (lines 83-105): call the tool, append the
calling marker, extend the messages, make the follow-up model request (no
tools parameter) and append the text of its first content block. The dead
local `tool_results` (written, never read) is not modelled. -/
def toolUseStep (env : Env) (session : Nat) (name input : String)
    (textAttr : Option String) (finalText : List String) (messages : List Msg) :
    Except PyError (List String × List Msg) :=
  let result := env.callTool session name input
  let finalText := finalText ++ [callingMarker name input]
  let messages := toolFollowUpMessages messages textAttr result.content
  match firstBlockText (env.create messages none) with
  | .error e => .error e
  | .ok t => .ok (finalText ++ [t], messages)

/-- One iteration of the `for content in response.content` loop of
process_query (lines 75-105), acting on the pair (final_text, messages). -/
def processBlock (env : Env) (t2s : List (String × Nat)) :
    List String × List Msg → ContentBlock → Except PyError (List String × List Msg)
  | (finalText, messages), .text t => .ok (finalText ++ [t], messages)
  | (finalText, messages), .tool_use name input textAttr =>
    match dictLookup t2s name with
    | none => .error (.keyError name)
    | some session => toolUseStep env session name input textAttr finalText messages

/-- `MCPClient.process_query` (lines 44-107): build tool2session and
available_tools from the sessions, make the initial model request with the
query as the single user message, run the content-block loop (iteration stays
over the blocks of the initial response even though `response` is rebound
inside the loop), and join the collected fragments with newlines. -/
def processQuery (env : Env) (sessions : List (Nat × List Tool)) (query : String) :
    Except PyError String :=
  let messages : List Msg := [⟨"user", query⟩]
  let t2s := buildTool2Session sessions
  let response := env.create messages (some (availableTools sessions))
  (response.foldlM (processBlock env t2s) ([], messages)).map
    (fun r => String.intercalate "\n" r.1)

/-- The transcript fragments exactly as claim C2 states them: the text of each
text block and, for each tool_use block, the text of the first content block
of the follow-up request made after the tool call — and nothing else. This
definition follows the claim's words, for comparison with `processQuery`. -/
def claimFragments (env : Env) (t2s : List (String × Nat)) :
    List ContentBlock → List Msg → Except PyError (List String)
  | [], _ => .ok []
  | .text t :: rest, messages =>
    (claimFragments env t2s rest messages).map (fun fs => t :: fs)
  | .tool_use name input textAttr :: rest, messages =>
    match dictLookup t2s name with
    | none => .error (.keyError name)
    | some session =>
      let messages := toolFollowUpMessages messages textAttr
        (env.callTool session name input).content
      match firstBlockText (env.create messages none) with
      | .error e => .error e
      | .ok t => (claimFragments env t2s rest messages).map (fun fs => t :: fs)

/-- As `claimFragments`, but additionally with the
`[Calling tool {name} with args {args}]` marker fragment that the code also
appends for every tool_use block (the amendment to claim C2). -/
def amendedFragments (env : Env) (t2s : List (String × Nat)) :
    List ContentBlock → List Msg → Except PyError (List String)
  | [], _ => .ok []
  | .text t :: rest, messages =>
    (amendedFragments env t2s rest messages).map (fun fs => t :: fs)
  | .tool_use name input textAttr :: rest, messages =>
    match dictLookup t2s name with
    | none => .error (.keyError name)
    | some session =>
      let messages := toolFollowUpMessages messages textAttr
        (env.callTool session name input).content
      match firstBlockText (env.create messages none) with
      | .error e => .error e
      | .ok t =>
        (amendedFragments env t2s rest messages).map
          (fun fs => callingMarker name input :: t :: fs)

/-- Drop leading whitespace characters from a character list. -/
def stripLeftChars : List Char → List Char
  | [] => []
  | c :: cs => if c.isWhitespace then stripLeftChars cs else c :: cs

/-- Python `str.strip()` (no arguments): remove leading and trailing
whitespace. -/
def pyStrip (s : String) : String :=
  String.mk ((stripLeftChars (stripLeftChars s.data).reverse).reverse)

/-- Python `str.lower()` (on the ASCII letters these scripts compare). -/
def pyLower (s : String) : String := String.mk (s.data.map Char.toLower)

/-- Python `str.rstrip()` (no arguments): remove trailing whitespace. -/
def pyRstrip (s : String) : String :=
  String.mk ((stripLeftChars s.data.reverse).reverse)

/-- `MCPClient.chat_loop` (lines 109-124) run over a finite list of lines
returned by successive `input()` calls. `process` models
`self.process_query`; `Except.error e` models an exception whose `str` is
`e`. Returned: the lines printed inside the loop body, in order. An
exception is caught by the `except` clause, the error line is printed, and
the `while True` loop continues with the next input. -/
def chatLoop (process : String → Except String String) : List String → List String
  | [] => []
  | line :: rest =>
    let query := pyStrip line
    if pyLower query = "quit" then []
    else
      match process query with
      | .ok response => ("\n" ++ response) :: chatLoop process rest
      | .error e => ("\nError: " ++ e) :: chatLoop process rest

/-- A concrete process_query stand-in used by concrete runs: it fails on the
query "boom" and answers any other query. -/
def procDemo : String → Except String String :=
  fun q => if q = "boom" then .error "kaboom" else .ok ("answered:" ++ q)

/-- `main` of agent_w_mcp.py (lines 130-139): the lines its top-level
try/except prints for the outcome of the body. On an exception the error is
printed and the run terminates (the function returns). -/
def mcpMain (body : Except String Unit) : List String :=
  match body with
  | .ok _ => []
  | .error e => ["An error occurred: " ++ e]

/-- Line 131 of agent_w_mcp.py: `json.load(open(sys.argv[1]))["mcpServers"]`.
`readJson` is the filesystem/JSON oracle mapping a path to the parsed
top-level object; `argv` is the full command line (`argv[0]` the script).
`none` models the IndexError (missing argument) or KeyError (missing
"mcpServers" key) cases. -/
def mcpServerConfigs {α : Type} (readJson : String → List (String × α))
    (argv : List String) : Option α :=
  match argv.get? 1 with
  | none => none
  | some path => ((readJson path).find? (fun p => p.1 == "mcpServers")).map Prod.snd

/-! ## agent_w_mcp/bash_tool_fastmcp.py -/

/-- Whether a byte is a UTF-8 continuation byte (0b10xxxxxx). -/
def isContinuationByte (b : Nat) : Bool := decide (0x80 ≤ b ∧ b < 0xC0)

/-- UTF-8 decoding of a byte list to code points, rejecting malformed
sequences, overlong encodings, surrogates and code points beyond U+10FFFF —
the validation Python's `bytes.decode("utf-8")` performs. -/
def utf8DecodeBytes : List Nat → Option (List Nat)
  | [] => some []
  | b :: bs =>
    if b < 0x80 then (utf8DecodeBytes bs).map (b :: ·)
    else if b < 0xC2 then none
    else if b < 0xE0 then
      match bs with
      | b1 :: bs' =>
        if isContinuationByte b1 then
          (utf8DecodeBytes bs').map (((b - 0xC0) * 0x40 + (b1 - 0x80)) :: ·)
        else none
      | [] => none
    else if b < 0xF0 then
      match bs with
      | b1 :: b2 :: bs' =>
        if isContinuationByte b1 && isContinuationByte b2 then
          let cp := (b - 0xE0) * 0x1000 + (b1 - 0x80) * 0x40 + (b2 - 0x80)
          if cp < 0x800 then none
          else if 0xD800 ≤ cp ∧ cp < 0xE000 then none
          else (utf8DecodeBytes bs').map (cp :: ·)
        else none
      | _ => none
    else if b < 0xF5 then
      match bs with
      | b1 :: b2 :: b3 :: bs' =>
        if isContinuationByte b1 && isContinuationByte b2 && isContinuationByte b3 then
          let cp := (b - 0xF0) * 0x40000 + (b1 - 0x80) * 0x1000 +
            (b2 - 0x80) * 0x40 + (b3 - 0x80)
          if cp < 0x10000 then none
          else if 0x110000 ≤ cp then none
          else (utf8DecodeBytes bs').map (cp :: ·)
        else none
      | _ => none
    else none

/-- `out.decode("utf-8")` on raw stdout bytes. -/
def bytesDecodeUtf8 (bs : List Nat) : Option String :=
  (utf8DecodeBytes bs).map (fun cps => String.mk (cps.map Char.ofNat))

/-- Errors the `bash` tool body can raise. -/
inductive SubprocessError where
  | calledProcessError (returncode : Nat)
  | unicodeDecodeError
deriving DecidableEq

/-- The `bash` tool of bash_tool_fastmcp.py (lines 8-12). The shell is the
oracle `run`, giving the exit status and raw stdout bytes of the command.
`sp.check_output(command, shell=True)` raises CalledProcessError on any
non-zero exit status; on status 0 the captured stdout is decoded as UTF-8
and returned with trailing whitespace removed (`.rstrip()`). -/
def bash (run : String → Nat × List Nat) (command : String) :
    Except SubprocessError String :=
  let out := run command
  if out.1 ≠ 0 then .error (.calledProcessError out.1)
  else
    match bytesDecodeUtf8 out.2 with
    | none => .error .unicodeDecodeError
    | some s => .ok (pyRstrip s)

/-! ## multi_agent/multi-agent.py -/

/-- Line 22. -/
def team_members : List String :=
  ["frontend developer", "backend developer", "devops engineer"]

/-- Line 24. -/
def options : List String := team_members ++ ["FINISH"]

/-- Lines 26-32: the supervisor system prompt (the f-string interpolates the
Python repr of `team_members`). -/
def system_prompt : String :=
  "You are a supervisor tasked with managing a conversation between the" ++
  " following workers: [\x27frontend developer\x27, \x27backend developer\x27," ++
  " \x27devops engineer\x27]. Given the following user request," ++
  " respond with the worker to act next. Each worker will perform a" ++
  " task and respond with their results and status. When finished," ++
  " respond with FINISH."

/-- langgraph's `END` sentinel node name. -/
def END : String := "__end__"

/-- A message of the graph state (`role`/type, content, and the optional
`name` a HumanMessage can carry). -/
structure AgentMsg where
  role : String
  content : String
  name : Option String
deriving DecidableEq

/-- The graph `State` (line 53-54): `MessagesState` plus a `next` field. -/
structure AgentState where
  messages : List AgentMsg
  next : String
deriving DecidableEq

/-- A langgraph `Command(goto=..., update=...)`: the routing target and the
update dict (a field is `some` exactly when its key appears in the dict). -/
structure Command where
  goto : String
  update_messages : Option (List AgentMsg)
  update_next : Option String
deriving DecidableEq

/-- How the graph engine applies a Command's update to the state (behaviour
of the external library): the `messages` field of `MessagesState` carries the
append reducer, while `next` is plainly overwritten when present. -/
def applyCommand (state : AgentState) (c : Command) : AgentState :=
  ⟨state.messages ++ c.update_messages.getD [],
   c.update_next.getD state.next⟩

/-- `supervisor_node` (lines 62-71): prepend the system prompt to the state's
messages, ask the structured-output model call (the oracle `router`, whose
result langgraph validates against the `Router` TypedDict, so it lies in
`options`) for the next worker, replace "FINISH" by END, and return
`Command(goto=goto, update={"next": goto})`. -/
def supervisor_node (router : List AgentMsg → String) (state : AgentState) : Command :=
  let messages := ⟨"system", system_prompt, none⟩ :: state.messages
  let goto0 := router messages
  let goto := if goto0 = "FINISH" then END else goto0
  ⟨goto, none, some goto⟩

/-- `frontend_node` (lines 83-92): invoke the frontend react agent (the
oracle `agent`, returning the result's `messages` list), wrap the content of
its last message as a HumanMessage named "frontend developer", and go to the
supervisor. `none` models the IndexError of `result["messages"][-1]` on an
empty result. -/
def frontend_node (agent : AgentState → List AgentMsg) (state : AgentState) :
    Option Command :=
  match (agent state).getLast? with
  | none => none
  | some last =>
    some ⟨"supervisor", some [⟨"human", last.content, some "frontend developer"⟩], none⟩

/-- `backend_node` (lines 104-113), as `frontend_node` with the backend agent
and the name "backend developer". -/
def backend_node (agent : AgentState → List AgentMsg) (state : AgentState) :
    Option Command :=
  match (agent state).getLast? with
  | none => none
  | some last =>
    some ⟨"supervisor", some [⟨"human", last.content, some "backend developer"⟩], none⟩

/-- `devops_node` (lines 125-134), as `frontend_node` with the devops agent
and the name "devops engineer". -/
def devops_node (agent : AgentState → List AgentMsg) (state : AgentState) :
    Option Command :=
  match (agent state).getLast? with
  | none => none
  | some last =>
    some ⟨"supervisor", some [⟨"human", last.content, some "devops engineer"⟩], none⟩

/-- The hard-coded user prompt of multi-agent.py `main` (lines 146-153). -/
def user_prompt : String :=
  "I want to build a website for a conference, it should have several pages, " ++
  "namely: 1. Intro page about conference, 2. Page for people to submit their talks, " ++
  "3. Page with submitted talks. Frontend part needs to be written in react, backend - in fastapi. " ++
  "I want to store the submissions in postgresql database. " ++
  "In the end run the project in docker and docker compose and give me the local url to test. " ++
  "You can ask human client for any clarifications"

/-- The initial graph input of multi-agent.py `main` (line 158). The
parameter is the process command line, which the script never consults (it
imports no argv access); the input is the hard-coded prompt. -/
def multiAgentInitialInput (_argv : List String) : List (String × String) :=
  [("user", user_prompt)]

/-- `main` of multi-agent.py (lines 145-165): the lines its top-level
try/except prints for the outcome of the body; on an exception the error is
printed and the run terminates (the function returns). -/
def multiAgentMain (body : Except String Unit) : List String :=
  match body with
  | .ok _ => []
  | .error e => ["An error occurred: " ++ e]

/-- Line 34: `llm = ChatAnthropic(model="claude-3-5-sonnet-latest", max_retries=5)`. -/
structure ChatAnthropicConfig where
  model : String
  max_retries : Nat
deriving DecidableEq

/-- The constructor arguments of the `llm` client (multi-agent.py line 34). -/
def llm_config : ChatAnthropicConfig := ⟨"claude-3-5-sonnet-latest", 5⟩

/-- agent_w_mcp.py line 20: `self.anthropic = Anthropic()` — constructed with
default arguments, so no retry count is configured by this repository's code
for the MCP client's model calls. -/
def anthropic_max_retries_argument : Option Nat := none

/-- Retry behaviour of the hosted-model SDK client as configured by
`max_retries`: the attempt is repeated after a failure while retries remain.
`ok i` tells whether the i-th attempt (0-based) succeeds; the result is the
number of attempts the client makes for a single logical call. -/
def attemptsUsed : Nat → (Nat → Bool) → Nat
  | 0, _ => 1
  | maxRetries + 1, ok =>
    if ok 0 then 1 else 1 + attemptsUsed maxRetries (fun i => ok (i + 1))

/-! ## Concrete oracles for counterexamples and witnesses -/

/-- A concrete model environment: the initial request (the one carrying a
`tools` parameter) answers with a single tool_use block, every follow-up
request answers with a single text block. -/
def envDemo : Env :=
  ⟨fun _msgs tools =>
    match tools with
    | some _ => [ContentBlock.tool_use "bash" "\x7b'command': 'ls'\x7d" none]
    | none => [ContentBlock.text "done"],
   fun _ _ _ => ⟨"out"⟩⟩

/-- One connected session (id 0) hosting one tool named "bash". -/
def sessionsDemo : List (Nat × List Tool) :=
  [(0, [⟨"bash", "Run a command", "schema"⟩])]

/-- A concrete shell oracle: the command "ok" exits 0 printing "hi \n", any
other command exits 1 with empty output. -/
def runDemo : String → Nat × List Nat :=
  fun c => if c = "ok" then (0, [104, 105, 32, 10]) else (1, [])

/-- A concrete router that always picks the frontend worker. -/
def routerDemo : List AgentMsg → String := fun _ => "frontend developer"

/-- A concrete worker agent answering with one message. -/
def agentDemo : AgentState → List AgentMsg :=
  fun _ => [⟨"ai", "built the ui", none⟩]

/-- A concrete graph state. -/
def stateDemo : AgentState := ⟨[⟨"user", "hello", none⟩], "start"⟩

/-- A concrete filesystem/JSON oracle with one configuration file. -/
def readJsonDemo : String → List (String × Nat) :=
  fun p => if p = "servers.json" then [("mcpServers", 7)] else []

/-! ## Helper lemmas -/

theorem foldl_dictInsert_lookup (v : Nat) (names : List String) :
    ∀ (m : List (String × Nat)) (k : String),
      dictLookup (names.foldl (fun m name => dictInsert m name v) m) k =
        if k ∈ names then some v else dictLookup m k := by
  induction names with
  | nil => intro m k; simp
  | cons n names ih =>
    intro m k
    rw [List.foldl_cons, ih, dictInsert_lookup]
    by_cases h : k ∈ names
    · simp [h]
    · by_cases hk : k = n
      · simp [h, hk]
      · simp [h, hk]

theorem foldl_dictInsert_nodup (v : Nat) (names : List String) :
    ∀ (m : List (String × Nat)), (dictKeys m).Nodup →
      (dictKeys (names.foldl (fun m name => dictInsert m name v) m)).Nodup := by
  induction names with
  | nil => intro m h; simpa using h
  | cons n names ih =>
    intro m h
    rw [List.foldl_cons]
    exact ih _ (dictInsert_keys_nodup m n v h)

theorem buildTool2Session_lookup_go (name : String) :
    ∀ (sessions : List (Nat × List Tool)) (m : List (String × Nat)),
      dictLookup (sessions.foldl
          (fun m s => (toolNames s.2).foldl (fun m name => dictInsert m name s.1) m) m) name =
        match sessions.reverse.find? (fun s => decide (name ∈ toolNames s.2)) with
        | some s => some s.1
        | none => dictLookup m name := by
  intro sessions
  induction sessions with
  | nil => intro m; simp
  | cons s ss ih =>
    intro m
    rw [List.foldl_cons, ih, List.reverse_cons, List.find?_append]
    cases hf : ss.reverse.find? (fun s => decide (name ∈ toolNames s.2)) with
    | some t => simp [Option.or]
    | none =>
      by_cases hm : name ∈ toolNames s.2
      · simp [Option.or, List.find?, hm, foldl_dictInsert_lookup]
      · simp [Option.or, List.find?, hm, foldl_dictInsert_lookup]

theorem buildTool2Session_nodup_go :
    ∀ (sessions : List (Nat × List Tool)) (m : List (String × Nat)),
      (dictKeys m).Nodup →
      (dictKeys (sessions.foldl
          (fun m s => (toolNames s.2).foldl (fun m name => dictInsert m name s.1) m) m)).Nodup := by
  intro sessions
  induction sessions with
  | nil => intro m h; simpa using h
  | cons s ss ih =>
    intro m h
    rw [List.foldl_cons]
    exact ih _ (foldl_dictInsert_nodup _ _ _ h)

/-! ## Claim theorems -/

/-- C1: after the registration loop of process_query, the tool2session
mapping has pairwise distinct tool names as keys; a tool name is mapped to
the id of the last session of `self.sessions` whose list_tools response
lists that name (last registration wins); and the loop's dispatch step for a
tool_use block with that name calls the tool on exactly that session (a
KeyError when no session lists the name). -/
theorem c1_tool2session_unique_last_wins (sessions : List (Nat × List Tool)) (name : String) :
    (dictKeys (buildTool2Session sessions)).Nodup ∧
    dictLookup (buildTool2Session sessions) name =
      (sessions.reverse.find? (fun s => decide (name ∈ toolNames s.2))).map Prod.fst ∧
    (∀ (env : Env) (finalText : List String) (messages : List Msg)
        (input : String) (textAttr : Option String),
      processBlock env (buildTool2Session sessions) (finalText, messages)
          (ContentBlock.tool_use name input textAttr) =
        match (sessions.reverse.find? (fun s => decide (name ∈ toolNames s.2))).map Prod.fst with
        | none => .error (.keyError name)
        | some sid => toolUseStep env sid name input textAttr finalText messages) := by
  have hlook : dictLookup (buildTool2Session sessions) name =
      (sessions.reverse.find? (fun s => decide (name ∈ toolNames s.2))).map Prod.fst := by
    rw [buildTool2Session, buildTool2Session_lookup_go]
    cases hf : sessions.reverse.find? (fun s => decide (name ∈ toolNames s.2)) <;>
      simp [dictLookup]
  refine ⟨?_, hlook, ?_⟩
  · rw [buildTool2Session]
    exact buildTool2Session_nodup_go sessions [] (by simp [dictKeys])
  · intro env finalText messages input textAttr
    show (match dictLookup (buildTool2Session sessions) name with
      | none => Except.error (PyError.keyError name)
      | some session => toolUseStep env session name input textAttr finalText messages) = _
    rw [hlook]

theorem foldlM_processBlock_eq (env : Env) (t2s : List (String × Nat)) :
    ∀ (blocks : List ContentBlock) (acc : List String) (messages : List Msg),
      (blocks.foldlM (processBlock env t2s) (acc, messages)).map Prod.fst =
        (amendedFragments env t2s blocks messages).map (fun fs => acc ++ fs) := by
  intro blocks
  induction blocks with
  | nil => intro acc messages; simp [List.foldlM, amendedFragments, pure, Except.pure, Except.map]
  | cons b rest ih =>
    intro acc messages
    cases b with
    | text t =>
      rw [List.foldlM_cons]
      rw [show processBlock env t2s (acc, messages) (ContentBlock.text t) =
        Except.ok (acc ++ [t], messages) from rfl]
      rw [show amendedFragments env t2s (ContentBlock.text t :: rest) messages =
        (amendedFragments env t2s rest messages).map (fun fs => t :: fs) from rfl]
      rw [show (Except.ok (acc ++ [t], messages) >>= fun b' =>
          List.foldlM (processBlock env t2s) b' rest) =
        List.foldlM (processBlock env t2s) (acc ++ [t], messages) rest from rfl]
      rw [ih]
      cases ham : amendedFragments env t2s rest messages with
      | error e => simp [Except.map]
      | ok fs => simp [Except.map]
    | tool_use name input textAttr =>
      rw [List.foldlM_cons]
      rw [show processBlock env t2s (acc, messages) (ContentBlock.tool_use name input textAttr) =
        (match dictLookup t2s name with
         | none => Except.error (PyError.keyError name)
         | some session => toolUseStep env session name input textAttr acc messages) from rfl]
      rw [show amendedFragments env t2s (ContentBlock.tool_use name input textAttr :: rest) messages =
        (match dictLookup t2s name with
         | none => Except.error (PyError.keyError name)
         | some session =>
           match firstBlockText (env.create (toolFollowUpMessages messages textAttr
               (env.callTool session name input).content) none) with
           | .error e => Except.error e
           | .ok t =>
             (amendedFragments env t2s rest (toolFollowUpMessages messages textAttr
                 (env.callTool session name input).content)).map
               (fun fs => callingMarker name input :: t :: fs)) from rfl]
      cases hl : dictLookup t2s name with
      | none => simp [Except.map, Bind.bind, Except.bind]
      | some session =>
        dsimp only
        rw [show toolUseStep env session name input textAttr acc messages =
          (match firstBlockText (env.create (toolFollowUpMessages messages textAttr
              (env.callTool session name input).content) none) with
           | .error e => Except.error e
           | .ok t => Except.ok ((acc ++ [callingMarker name input]) ++ [t],
               toolFollowUpMessages messages textAttr
                 (env.callTool session name input).content)) from rfl]
        cases hf : firstBlockText (env.create (toolFollowUpMessages messages textAttr
            (env.callTool session name input).content) none) with
        | error e => simp [Except.map, Bind.bind, Except.bind]
        | ok t =>
          rw [show ((Except.ok ((acc ++ [callingMarker name input]) ++ [t],
              toolFollowUpMessages messages textAttr
                (env.callTool session name input).content) :
                Except PyError (List String × List Msg)) >>= fun b' =>
              List.foldlM (processBlock env t2s) b' rest) =
            List.foldlM (processBlock env t2s)
              ((acc ++ [callingMarker name input]) ++ [t],
               toolFollowUpMessages messages textAttr
                 (env.callTool session name input).content) rest from rfl]
          rw [ih]
          cases ham : amendedFragments env t2s rest (toolFollowUpMessages messages textAttr
              (env.callTool session name input).content) with
          | error e => simp [Except.map]
          | ok fs => simp [Except.map, List.append_assoc]

/-- C2 (amended): for every environment, session list and query,
process_query returns exactly the transcript recurrence the claim describes
— each text block contributes its text; each tool_use block causes one
call_tool on the session tool2session maps its name to, with its input,
appends the tool result's content as a user message, makes one follow-up
model request and contributes the text of that response's first content
block — except that each tool_use block additionally contributes the marker
fragment `[Calling tool {name} with args {args}]` before the follow-up text;
the returned string joins these fragments with newlines. -/
theorem c2_process_query_transcript (env : Env) (sessions : List (Nat × List Tool))
    (query : String) :
    processQuery env sessions query =
      (amendedFragments env (buildTool2Session sessions)
          (env.create [⟨"user", query⟩] (some (availableTools sessions)))
          [⟨"user", query⟩]).map (String.intercalate "\n") := by
  have h := foldlM_processBlock_eq env (buildTool2Session sessions)
    (env.create [⟨"user", query⟩] (some (availableTools sessions))) [] [⟨"user", query⟩]
  rw [processQuery]
  cases hr : (env.create [⟨"user", query⟩] (some (availableTools sessions))).foldlM
      (processBlock env (buildTool2Session sessions)) ([], [⟨"user", query⟩]) with
  | error e =>
    rw [hr] at h
    cases ham : amendedFragments env (buildTool2Session sessions)
        (env.create [⟨"user", query⟩] (some (availableTools sessions))) [⟨"user", query⟩] with
    | error e' => simp [ham, Except.map] at h ⊢; exact h
    | ok fs => rw [ham] at h; simp [Except.map] at h
  | ok r =>
    rw [hr] at h
    cases ham : amendedFragments env (buildTool2Session sessions)
        (env.create [⟨"user", query⟩] (some (availableTools sessions))) [⟨"user", query⟩] with
    | error e' => rw [ham] at h; simp [Except.map] at h
    | ok fs =>
      rw [ham] at h
      simp only [Except.map] at h ⊢
      simp at h
      rw [h]

/-- C2 counterexample: with one connected session hosting the tool "bash"
and a model response containing a single tool_use block, the string
process_query returns is NOT the newline-join of only the fragments the
claim lists (the follow-up text "done"): the code also inserts the
`[Calling tool bash with args ...]` marker fragment, so the claim's
transcript equation is false as stated. -/
theorem c2_counterexample :
    processQuery envDemo sessionsDemo "hello" ≠
      (claimFragments envDemo (buildTool2Session sessionsDemo)
          (envDemo.create [⟨"user", "hello"⟩] (some (availableTools sessionsDemo)))
          [⟨"user", "hello"⟩]).map (String.intercalate "\n") := by decide

/-- C3 counterexample: in a run whose first query raises, chat_loop prints
the error line and then still processes the next query ("ok"), so an
exception while processing a query does NOT cause the interactive loop to
exit: the except clause sits inside `while True` and the loop continues. -/
theorem c3_counterexample :
    chatLoop procDemo ["boom", "ok"] = ["\nError: kaboom", "\nanswered:ok"] ∧
    chatLoop procDemo ["boom", "ok"] ≠ ["\nError: kaboom"] := by decide

/-- C3 (amended): an exception raised while processing a query inside
MCPClient.chat_loop is caught: the error is printed and the loop continues
with the next input line; an exception propagating to the top level of
either script's `main` is printed as "An error occurred: ..." and the run
terminates. -/
theorem c3_error_handling (process : String → Except String String) (line : String)
    (rest : List String) (e : String)
    (hq : pyLower (pyStrip line) ≠ "quit") (he : process (pyStrip line) = .error e) :
    chatLoop process (line :: rest) = ("\nError: " ++ e) :: chatLoop process rest ∧
    mcpMain (Except.error e) = ["An error occurred: " ++ e] ∧
    multiAgentMain (Except.error e) = ["An error occurred: " ++ e] := by
  refine ⟨?_, rfl, rfl⟩
  rw [chatLoop, if_neg hq, he]

theorem c3_error_handling_witness :
    chatLoop procDemo ["boom"] = ("\nError: " ++ "kaboom") :: chatLoop procDemo [] ∧
    mcpMain (Except.error "kaboom") = ["An error occurred: " ++ "kaboom"] ∧
    multiAgentMain (Except.error "kaboom") = ["An error occurred: " ++ "kaboom"] :=
  c3_error_handling procDemo "boom" [] "kaboom" (by decide) (by decide)

/-- C4 counterexample: the multi-agent script does configure a retry policy:
line 34 passes max_retries=5 to its model client, under which a persistently
failing model call is attempted 6 times — not exactly once as claimed. -/
theorem c4_counterexample :
    llm_config.max_retries = 5 ∧
    attemptsUsed llm_config.max_retries (fun _ => false) = 6 ∧
    attemptsUsed llm_config.max_retries (fun _ => false) ≠ 1 := by decide

/-- C4 (amended): the MCP client script configures no retry count
(`Anthropic()` with default arguments), while the multi-agent script
configures its model client with max_retries=5, so a failing model call
may be attempted up to 6 times; a call that succeeds at once is attempted
exactly once. -/
theorem c4_retry_configuration :
    anthropic_max_retries_argument = none ∧
    llm_config.max_retries = 5 ∧
    attemptsUsed llm_config.max_retries (fun _ => false) = 6 ∧
    attemptsUsed llm_config.max_retries (fun _ => true) = 1 := by decide

/-- C5: when the structured routing decision lies in `options` (the three
workers plus "FINISH", as the Router literal type enforces), supervisor_node
returns a Command whose goto is that worker's name when the decision is a
worker, and the graph end when the decision is FINISH — hence the goto is
always one of the three workers or END — and whose update sets the state's
`next` field to that same goto value (and touches nothing else). -/
theorem c5_supervisor_routes (router : List AgentMsg → String) (state : AgentState)
    (h : router (⟨"system", system_prompt, none⟩ :: state.messages) ∈ options) :
    ((supervisor_node router state).goto ∈ team_members ∨
      (supervisor_node router state).goto = END) ∧
    (router (⟨"system", system_prompt, none⟩ :: state.messages) ∈ team_members →
      (supervisor_node router state).goto =
        router (⟨"system", system_prompt, none⟩ :: state.messages)) ∧
    (router (⟨"system", system_prompt, none⟩ :: state.messages) = "FINISH" →
      (supervisor_node router state).goto = END) ∧
    (supervisor_node router state).update_next = some (supervisor_node router state).goto ∧
    (supervisor_node router state).update_messages = none ∧
    (applyCommand state (supervisor_node router state)).next =
      (supervisor_node router state).goto := by
  have hfin : "FINISH" ∉ team_members := by decide
  by_cases hd : router (⟨"system", system_prompt, none⟩ :: state.messages) = "FINISH"
  · refine ⟨Or.inr ?_, ?_, ?_, rfl, rfl, rfl⟩
    · simp [supervisor_node, hd]
    · intro hmem; exact absurd (hd ▸ hmem) hfin
    · intro _; simp [supervisor_node, hd]
  · have hmem : router (⟨"system", system_prompt, none⟩ :: state.messages) ∈ team_members := by
      rcases List.mem_append.mp h with h' | h'
      · exact h'
      · exact absurd (List.mem_singleton.mp h') hd
    refine ⟨Or.inl ?_, ?_, ?_, rfl, rfl, rfl⟩
    · simpa [supervisor_node, hd] using hmem
    · intro _; simp [supervisor_node, hd]
    · intro hfin'; exact absurd hfin' hd

theorem c5_supervisor_routes_witness :
    ((supervisor_node routerDemo stateDemo).goto ∈ team_members ∨
      (supervisor_node routerDemo stateDemo).goto = END) ∧
    (supervisor_node routerDemo stateDemo).update_next =
      some (supervisor_node routerDemo stateDemo).goto :=
  ⟨(c5_supervisor_routes routerDemo stateDemo (by decide)).1,
   (c5_supervisor_routes routerDemo stateDemo (by decide)).2.2.2.1⟩

/-- C6: the MCP client's server configuration is obtained exclusively from
the file named by the first command-line argument under the key
"mcpServers" — the result depends only on `argv[1]` and the parsed content
of that one file, and equals that file's "mcpServers" entry — while the
multi-agent script's graph input is the hard-coded prompt, identical for
every command line. -/
theorem c6_config_sources :
    (∀ (α : Type) (f g : String → List (String × α)) (argv argv' : List String),
        argv.get? 1 = argv'.get? 1 →
        (∀ p, argv.get? 1 = some p → f p = g p) →
        mcpServerConfigs f argv = mcpServerConfigs g argv') ∧
    (∀ (α : Type) (f : String → List (String × α)) (argv : List String) (path : String),
        argv.get? 1 = some path →
        mcpServerConfigs f argv =
          ((f path).find? (fun p => p.1 == "mcpServers")).map Prod.snd) ∧
    (∀ argv : List String, multiAgentInitialInput argv = [("user", user_prompt)]) := by
  refine ⟨?_, ?_, fun _ => rfl⟩
  · intro α f g argv argv' h1 h2
    rw [mcpServerConfigs, mcpServerConfigs, h1]
    cases hp : argv'.get? 1 with
    | none => rfl
    | some path => dsimp only; rw [h2 path (h1.trans hp)]
  · intro α f argv path hp
    rw [mcpServerConfigs, hp]

theorem c6_config_sources_witness :
    mcpServerConfigs readJsonDemo ["client.py", "servers.json"] =
      mcpServerConfigs readJsonDemo ["prog", "servers.json"] ∧
    mcpServerConfigs readJsonDemo ["client.py", "servers.json"] =
      ((readJsonDemo "servers.json").find? (fun p => p.1 == "mcpServers")).map Prod.snd ∧
    multiAgentInitialInput ["multi-agent.py"] = [("user", user_prompt)] :=
  ⟨c6_config_sources.1 Nat readJsonDemo readJsonDemo
      ["client.py", "servers.json"] ["prog", "servers.json"] rfl (fun _ _ => rfl),
   c6_config_sources.2.1 Nat readJsonDemo ["client.py", "servers.json"] "servers.json" rfl,
   c6_config_sources.2.2 ["multi-agent.py"]⟩

/-- C8: chat_loop stops on a user input line exactly when the line, stripped
of surrounding whitespace and lowercased, equals "quit" (so variants like
"QUIT  " stop it); any other line — the empty string included — has its
stripped form processed, the reply or error printed, and the loop continue
with the remaining inputs. -/
theorem c8_quit_condition (process : String → Except String String) (line : String)
    (rest : List String) :
    (pyLower (pyStrip line) = "quit" → chatLoop process (line :: rest) = []) ∧
    (pyLower (pyStrip line) ≠ "quit" →
      chatLoop process (line :: rest) =
        (match process (pyStrip line) with
         | .ok r => "\n" ++ r
         | .error e => "\nError: " ++ e) :: chatLoop process rest) := by
  constructor
  · intro h; rw [chatLoop, if_pos h]
  · intro h
    rw [chatLoop, if_neg h]
    cases hp : process (pyStrip line) <;> rfl

theorem c8_quit_condition_witness :
    chatLoop procDemo ["QUIT  ", "x"] = [] ∧
    chatLoop procDemo ["", "y"] =
      (match procDemo (pyStrip "") with
       | .ok r => "\n" ++ r
       | .error e => "\nError: " ++ e) :: chatLoop procDemo ["y"] :=
  ⟨(c8_quit_condition procDemo "QUIT  " ["x"]).1 (by decide),
   (c8_quit_condition procDemo "" ["y"]).2 (by decide)⟩

/-- C9: the bash tool returns, for a command whose shell run exits with
status 0 and whose captured stdout decodes as UTF-8 to `s`, exactly `s` with
trailing whitespace removed; for any command exiting with a non-zero status
it raises CalledProcessError (returning no string). -/
theorem c9_bash_tool (run : String → Nat × List Nat) (command : String) :
    ((run command).1 = 0 → ∀ s, bytesDecodeUtf8 (run command).2 = some s →
      bash run command = .ok (pyRstrip s)) ∧
    ((run command).1 ≠ 0 →
      bash run command = .error (.calledProcessError (run command).1)) := by
  constructor
  · intro h0 s hs
    rw [bash]
    simp [h0, hs]
  · intro h
    rw [bash]
    simp [h]

theorem c9_bash_tool_witness :
    bash runDemo "ok" = .ok (pyRstrip "hi \n") ∧
    bash runDemo "bad" = .error (.calledProcessError 1) :=
  ⟨(c9_bash_tool runDemo "ok").1 (by decide) "hi \n" (by decide),
   (c9_bash_tool runDemo "bad").2 (by decide)⟩

/-- C10: every worker node, for every agent result whose messages list is
non-empty, returns a Command whose goto is "supervisor" (not a worker, so
control never passes directly from one worker to another) and whose update
dict contains exactly one entry, "messages", holding a single HumanMessage
named after that worker with the content of the agent result's last message;
applying such a Command appends exactly that one message and leaves the
`next` field (and everything else) unchanged. -/
theorem c10_worker_nodes (agent : AgentState → List AgentMsg) (state : AgentState)
    (last : AgentMsg) (h : (agent state).getLast? = some last) :
    frontend_node agent state =
      some ⟨"supervisor", some [⟨"human", last.content, some "frontend developer"⟩], none⟩ ∧
    backend_node agent state =
      some ⟨"supervisor", some [⟨"human", last.content, some "backend developer"⟩], none⟩ ∧
    devops_node agent state =
      some ⟨"supervisor", some [⟨"human", last.content, some "devops engineer"⟩], none⟩ ∧
    (∀ m : AgentMsg,
      applyCommand state ⟨"supervisor", some [m], none⟩ =
        ⟨state.messages ++ [m], state.next⟩) ∧
    "supervisor" ∉ team_members := by
  refine ⟨?_, ?_, ?_, fun m => rfl, by decide⟩ <;>
    simp [frontend_node, backend_node, devops_node, h]

theorem c10_worker_nodes_witness :
    frontend_node agentDemo stateDemo =
      some ⟨"supervisor", some [⟨"human", "built the ui", some "frontend developer"⟩], none⟩ ∧
    backend_node agentDemo stateDemo =
      some ⟨"supervisor", some [⟨"human", "built the ui", some "backend developer"⟩], none⟩ :=
  ⟨(c10_worker_nodes agentDemo stateDemo ⟨"ai", "built the ui", none⟩ (by decide)).1,
   (c10_worker_nodes agentDemo stateDemo ⟨"ai", "built the ui", none⟩ (by decide)).2.1⟩

end DevWorld
